import Mathlib

/-
Shallow embedding of the rscrape repository (src/rscrape.py, plus the legacy
draft src/old.py where a claim refers to it).  Python strings are modelled as
Lean String, Python string operations as executable helpers below, network and
library collaborators (requests, the gfycat API, the imgur client, slugify) as
an explicit Env record of functions, and Python exceptions as an Except layer
with a PyErr sum type.  A raise of an undefined bare name (a NameError at
runtime, e.g. the unqualified ExtractionError inside GfycatExtractor, or the
unqualified raise_exceptions inside Extractor.extract) is modelled as
PyErr.nameError with the offending identifier.
-/

/-- Python s.endswith(suffix): the characters of suffix are a suffix of s. -/
def pyEndsWith (s suffix : String) : Bool :=
  suffix.data.isSuffixOf s.data

/-- Helper for substring search over character lists. -/
def containsAux (pat : List Char) : List Char → Bool
  | [] => pat.isEmpty
  | c :: rest => pat.isPrefixOf (c :: rest) || containsAux pat rest

/-- Python membership test sub in s for strings: sub occurs as a contiguous
substring of s. -/
def pyContains (s sub : String) : Bool :=
  containsAux sub.data s.data

/-- Python s.split(sep)[-1] for a one-character separator: the segment of s
after the last occurrence of sep, or s itself when sep does not occur. -/
def pySplitLast (sep : Char) (s : String) : String :=
  String.mk ((s.data.reverse.takeWhile (fun c => c != sep)).reverse)

/-- Characters of Python string.punctuation (the apostrophe, backtick and
braces written via their code points). -/
def punctuationChars : List Char :=
  ['!', '\"', '#', '$', '%', '&', Char.ofNat 39, '(', ')', '*', '+', ',', '-',
   '.', '/', ':', ';', '<', '=', '>', '?', '@', '[', '\\', ']', '^', '_',
   Char.ofNat 96, Char.ofNat 123, '|', Char.ofNat 125, '~']

/-- Characters of Python string.digits. -/
def digitChars : List Char :=
  ['0', '1', '2', '3', '4', '5', '6', '7', '8', '9']

/-- Python s.strip(chars): drop characters of the set from both ends. -/
def pyStrip (cs : List Char) (s : String) : String :=
  String.mk (((s.data.dropWhile (fun c => cs.contains c)).reverse.dropWhile
    (fun c => cs.contains c)).reverse)

/-- Extractor.clean_url from src/rscrape.py lines 47 and 48: strip
string.punctuation plus string.digits from both ends of the url. -/
def clean_url (url : String) : String :=
  pyStrip (punctuationChars ++ digitChars) url

/-- One reddit submission as consumed by the extractors: fields id, title,
url, score (praw supplies it; read-only here). -/
structure Submission where
  id : String
  title : String
  url : String
  score : Int
  deriving DecidableEq

/-- Result from src/rscrape.py lines 26 to 31, with the keyword fields every
extract_link call site passes: reddit_id, title, link, extension. -/
structure Result where
  reddit_id : String
  title : String
  link : String
  extension : String
  deriving DecidableEq

/-- Python exceptions that the embedded code can propagate. -/
inductive PyErr where
  | nameError (missing : String)
  | keyError (key : String)
  | requestError (msg : String)
  deriving DecidableEq

instance {e a : Type} [DecidableEq e] [DecidableEq a] : DecidableEq (Except e a) := fun x y =>
  match x, y with
  | .ok u, .ok v => decidable_of_iff (u = v) (by simp)
  | .ok _, .error _ => isFalse (by simp)
  | .error _, .ok _ => isFalse (by simp)
  | .error u, .error v => decidable_of_iff (u = v) (by simp)

/-- Response of requests.get as used by RedditExtractor.get_file_extension:
the ok flag and the value of the content-type header (none when the header is
absent, in which case the subscript raises KeyError). -/
structure HttpResp where
  ok : Bool
  contentType : Option String
  deriving DecidableEq

/-- Parsed gfyItem object of the gfycat API body; the code reads its mp4Url
field (src/rscrape.py line 132). -/
structure GfyItem where
  mp4Url : String
  deriving DecidableEq

/-- Parsed JSON body of the gfycat metadata API: gfyItem is some value exactly
when data.get of gfyItem is truthy, error models data.get of error. -/
structure GfyResp where
  ok : Bool
  gfyItem : Option GfyItem
  error : Option String
  deriving DecidableEq

/-- Image object returned by imgur.get_image: attributes title (may be None),
link and type (a content type such as image/png). -/
structure ImgurImage where
  title : Option String
  link : String
  type : String
  deriving DecidableEq

/-- One entry of album.images as read by parse_imgur_url in src/old.py:
subscripts title (may be None) and link. -/
structure AlbumImage where
  title : Option String
  link : String
  deriving DecidableEq

/-- Album object returned by imgur.get_album in src/old.py. -/
structure ImgurAlbum where
  images : List AlbumImage
  deriving DecidableEq

/-- External collaborators of the code, passed explicitly: requests.get on a
direct url, requests.get plus json decoding on the gfycat API url for a given
id, imgur.get_image, imgur.get_album, and the slugify library called with
separator underscore, max_length 200, save_order True, word_boundary True
(src/rscrape.py lines 50 to 56).  An error value means the call raised. -/
structure Env where
  httpGet : String → Except PyErr HttpResp
  gfycatApi : String → Except PyErr GfyResp
  imgurGetImage : String → Except PyErr ImgurImage
  imgurGetAlbum : String → Except PyErr ImgurAlbum
  slug : String → String

/-- The four concrete Extractor subclasses instantiated by scrape
(src/rscrape.py lines 237 to 240). -/
inductive ExtractorKind where
  | DefaultExtractor
  | GfycatExtractor
  | ImgurExtractor
  | RedditExtractor
  deriving DecidableEq

/-- Default extension list of DefaultExtractor (src/rscrape.py line 152). -/
def default_extensions : List String :=
  ["jpeg", "jpg", "png", "gif"]

/-- The validate_link method of each concrete extractor (src/rscrape.py lines
94 to 96, 120 to 121, 154 to 155, 177 to 178). -/
def validate_link : ExtractorKind → Submission → Bool
  | .DefaultExtractor, s => default_extensions.any (fun e => pyEndsWith s.url e)
  | .GfycatExtractor, s => pyContains s.url "https://gfycat.com"
  | .ImgurExtractor, s => pyContains s.url "imgur.com"
  | .RedditExtractor, s =>
      pyContains s.url "https://i.reddituploads.com" ||
      pyContains s.url "https://i.redd.it"

/-- RedditExtractor.get_file_extension (src/rscrape.py lines 108 to 111):
requests.get the url and split the content-type header on the slash, taking
the last segment; a missing header raises KeyError. -/
def get_file_extension (env : Env) (url : String) : Except PyErr String :=
  match env.httpGet url with
  | .error e => .error e
  | .ok resp =>
    match resp.contentType with
    | none => .error (.keyError "content-type")
    | some ct => .ok (pySplitLast '/' ct)

/-- ImgurExtractor.parse_extension (src/rscrape.py lines 180 to 181). -/
def parse_extension (imgur_type : String) : String :=
  pySplitLast '/' imgur_type

/-- The extract_link method of each concrete extractor.  The second string
argument is the url that Extractor.extract passes in; no variant reads it
(each one reads submission.url directly), so it is bound but unused, exactly
as in the source.  GfycatExtractor: when the body has no truthy gfyItem, or
the response is not ok, the source raises the bare name ExtractionError
(src/rscrape.py lines 136 and 142); that name is undefined in the enclosing
scope (it lives on the Extractor class object and methods do not see the class
body scope), so Python raises NameError, modelled here as
PyErr.nameError of ExtractionError.  RedditExtractor calls
get_file_extension twice (lines 99 and 105); over the pure Env both calls
agree, the first bound value being unused. -/
def reddit_extract_link (env : Env) (s : Submission) (_url : String) :
    Except PyErr Result :=
  match get_file_extension env s.url with
  | .error e => .error e
  | .ok _ =>
    match get_file_extension env s.url with
    | .error e => .error e
    | .ok ext =>
      .ok { reddit_id := s.id, title := env.slug s.title, link := s.url,
            extension := ext }

/-- GfycatExtractor.extract_link (src/rscrape.py lines 123 to 142). -/
def gfycat_extract_link (env : Env) (s : Submission) (_url : String) :
    Except PyErr Result :=
  match env.gfycatApi (pySplitLast '/' s.url) with
  | .error e => .error e
  | .ok resp =>
    if resp.ok then
      match resp.gfyItem with
      | some item =>
        .ok { reddit_id := s.id, title := env.slug s.title,
              link := item.mp4Url, extension := "mp4" }
      | none => .error (.nameError "ExtractionError")
    else .error (.nameError "ExtractionError")

/-- DefaultExtractor.extract_link (src/rscrape.py lines 157 to 163). -/
def default_extract_link (env : Env) (s : Submission) (_url : String) :
    Except PyErr Result :=
  .ok { reddit_id := s.id, title := env.slug s.title, link := s.url,
        extension := pySplitLast '.' s.url }

/-- ImgurExtractor.extract_link (src/rscrape.py lines 183 to 190). -/
def imgur_extract_link (env : Env) (s : Submission) (_url : String) :
    Except PyErr Result :=
  match env.imgurGetImage (pySplitLast '/' s.url) with
  | .error e => .error e
  | .ok image =>
    .ok { reddit_id := s.id, title := s.title, link := image.link,
          extension := parse_extension image.type }

/-- Dispatch of extract_link over the concrete extractor class. -/
def extract_link (k : ExtractorKind) (env : Env) (s : Submission)
    (url : String) : Except PyErr Result :=
  match k with
  | .RedditExtractor => reddit_extract_link env s url
  | .GfycatExtractor => gfycat_extract_link env s url
  | .DefaultExtractor => default_extract_link env s url
  | .ImgurExtractor => imgur_extract_link env s url

/-- Extractor.extract (src/rscrape.py lines 64 to 87).  When validate_link
fails: with raise_exceptions set, the source raises the bare undefined name
InvalidFormatError, a NameError; otherwise it returns None.  When
validate_link passes, the cleaned url (or the raw one, per clean_urls) is
passed to extract_link inside a bare try/except; the except handler reads the
bare undefined name raise_exceptions, so any exception from extract_link turns
into a propagating NameError, whatever the flag. -/
def extract (k : ExtractorKind) (raise_exceptions clean_urls : Bool)
    (env : Env) (s : Submission) : Except PyErr (Option Result) :=
  if !validate_link k s then
    if raise_exceptions then
      .error (.nameError "InvalidFormatError")
    else
      .ok none
  else
    let url := if clean_urls then clean_url s.url else s.url
    match extract_link k env s url with
    | .ok link => .ok (some link)
    | .error _ => .error (.nameError "raise_exceptions")

/-- Order in which scrape builds and scans the extractor list
(src/rscrape.py lines 237 to 242): extractors = [d, e, i, r]. -/
def extractorOrder : List ExtractorKind :=
  [.DefaultExtractor, .GfycatExtractor, .ImgurExtractor, .RedditExtractor]

/-- Inner loop of scrape over one submission (src/rscrape.py lines 247 to
251), instrumented with the list of extractors whose extract_link body was
entered: extract reaches extract_link exactly when validate_link succeeds.
First component: the value of result after the loop (ok none when every
extractor returned None), or the propagating exception.  All extractors are
constructed with the defaults raise_exceptions False and clean_urls True. -/
def runChainTrace (env : Env) (s : Submission) :
    List ExtractorKind → Except PyErr (Option Result) × List ExtractorKind
  | [] => (.ok none, [])
  | k :: rest =>
    match extract k false true env s with
    | .ok (some r) => (.ok (some r), if validate_link k s then [k] else [])
    | .error e => (.error e, if validate_link k s then [k] else [])
    | .ok none =>
      let t := runChainTrace env s rest
      (t.1, (if validate_link k s then [k] else []) ++ t.2)

/-- Value of result for one submission after the extractor loop of scrape. -/
def runChain (env : Env) (s : Submission) (ks : List ExtractorKind) :
    Except PyErr (Option Result) :=
  (runChainTrace env s ks).1

/-- Observable end state of the submission loop of scrape (src/rscrape.py
lines 244 to 253): either the loop finished with the accumulated results and
invalid lists, or an uncaught exception aborted it, losing the remaining
submissions. -/
inductive BatchOutcome where
  | finished (results : List Result) (invalid : List String)
  | crashed (e : PyErr) (results : List Result) (invalid : List String)
      (unprocessed : List Submission)
  deriving DecidableEq

/-- Submission loop of scrape: for each submission run the extractor chain;
a truthy result is appended to results, otherwise the url is appended to
invalid; an exception propagates and aborts the whole loop (there is no
try/except around it in scrape). -/
def scrapeLoop (env : Env) :
    List Submission → List Result → List String → BatchOutcome
  | [], results, invalid => .finished results invalid
  | s :: rest, results, invalid =>
    match runChain env s extractorOrder with
    | .error e => .crashed e results invalid rest
    | .ok (some r) => scrapeLoop env rest (results ++ [r]) invalid
    | .ok none => scrapeLoop env rest results (invalid ++ [s.url])

/-- Destination filename built by Downloader._download (src/rscrape.py lines
202 to 206): open bracket, reddit_id, close bracket, space, title, dot,
extension. -/
def download_filename (r : Result) : String :=
  "[" ++ r.reddit_id ++ "] " ++ r.title ++ "." ++ r.extension

/-- Chunk size passed to iter_content in Downloader._download
(src/rscrape.py line 211). -/
def downloadChunkSize : Nat :=
  1024

/-- Streaming response body as the sequence of chunks that iter_content with
chunk_size 1024 yields; each chunk is a byte list of length at most 1024. -/
structure StreamResp where
  chunks : List (List Nat)
  deriving DecidableEq

/-- Transfer loop of Downloader._download (src/rscrape.py lines 216 to 220):
for each chunk, a truthy (non-empty) chunk is written, the first falsy
(empty) chunk breaks the loop.  The value is the list of writes performed, in
order. -/
def downloadLoop : List (List Nat) → List (List Nat)
  | [] => []
  | c :: rest => if c.isEmpty then [] else c :: downloadLoop rest

/-- State of the destination file after Downloader._download on one Result:
its path under the destination directory, the chunk writes performed, and the
handle state; the with statement (src/rscrape.py lines 209 to 210) closes the
handle on every exit path, so closed is true by construction. -/
structure FileWrite where
  path : String
  writes : List (List Nat)
  closed : Bool
  deriving DecidableEq

/-- Downloader._download on one Result: build the filename, requests.get the
link with stream=True (the body modelled by fetchStream), and run the chunk
loop inside the with block. -/
def downloadOne (dir : String) (fetchStream : String → StreamResp)
    (r : Result) : FileWrite :=
  { path := dir ++ "/" ++ download_filename r,
    writes := downloadLoop (fetchStream r.link).chunks,
    closed := true }

/-- One image descriptor built by parse_imgur_url in src/old.py: keys title,
link, extension. -/
structure ImgDict where
  title : String
  link : String
  extension : String
  deriving DecidableEq

/-- The parse_imgur_url function of the legacy draft src/old.py lines 60 to
102: album and gallery urls expand via imgur.get_album to one descriptor per
album image; direct i.imgur.com urls and imgur.com urls whose last path
segment has a dot map to a single descriptor taken from the url; any other
imgur url resolves through imgur.get_image to a single descriptor.  The
Python expression image title if truthy else the empty string is modelled by
Option.getD with default the empty string. -/
def parse_imgur_url (env : Env) (imgur_url : String) :
    Except PyErr (List ImgDict) :=
  if pyContains imgur_url "imgur.com/a/" || pyContains imgur_url "imgur.com/gallery" then
    match env.imgurGetAlbum (pySplitLast '/' imgur_url) with
    | .error e => .error e
    | .ok album =>
      .ok (album.images.map (fun im =>
        { title := im.title.getD "", link := im.link,
          extension := pySplitLast '.' im.link }))
  else if pyContains imgur_url "i.imgur.com" then
    .ok [{ title := "", link := imgur_url,
           extension := pySplitLast '.' imgur_url }]
  else if pyContains imgur_url "imgur.com" &&
      pyContains (pySplitLast '/' imgur_url) "." then
    .ok [{ title := "", link := imgur_url,
           extension := pySplitLast '.' imgur_url }]
  else
    match env.imgurGetImage (pySplitLast '/' imgur_url) with
    | .error e => .error e
    | .ok image =>
      .ok [{ title := image.title.getD "", link := image.link,
             extension := pySplitLast '.' image.link }]

/-- Simple concrete sanitizer used for witnesses: replace spaces by
underscores (one admissible behavior of the external slugify collaborator on
the titles that appear below). -/
def slugUnderscore (s : String) : String :=
  String.mk (s.data.map (fun c => if c = ' ' then '_' else c))

/-- Benign concrete environment for witnesses. -/
def envDefault : Env :=
  { httpGet := fun _ => .ok { ok := true, contentType := some "image/png" },
    gfycatApi := fun _ =>
      .ok { ok := true, gfyItem := some { mp4Url := "https://giant.gfycat.com/v.mp4" },
            error := none },
    imgurGetImage := fun _ =>
      .ok { title := some "t", link := "https://i.imgur.com/x.png",
            type := "image/png" },
    imgurGetAlbum := fun _ => .ok { images := [] },
    slug := slugUnderscore }

/-- Concrete submissions and environments used by witnesses and
counterexamples. -/
def subCat : Submission :=
  { id := "abc1", title := "A Cute Cat", url := "https://i.example.com/xyz.jpg",
    score := 120 }

def subW1 : Submission :=
  { id := "g1", title := "nice clip", url := "https://gfycat.com/HappyOtter",
    score := 7 }

def subGfyBad : Submission :=
  { id := "g2", title := "broken clip", url := "https://gfycat.com/qWeRtY",
    score := 5 }

def subGfy404 : Submission :=
  { id := "c3", title := "clip two", url := "https://gfycat.com/MissingOne",
    score := 1 }

def subUnsupported : Submission :=
  { id := "u1", title := "page", url := "https://example.com/page", score := 0 }

/-- Environment whose gfycat API answers with a null item and a declared
error field, as in the spec scenario. -/
def envGfyNotFound : Env :=
  { envDefault with
    gfycatApi := fun _ =>
      .ok { ok := true, gfyItem := none, error := some "not found" } }

/-- Value of result seen by the scrape loop for one applicable extractor:
an ok extract_link value is wrapped in some, any exception becomes the
NameError on the bare name raise_exceptions that the except handler of
Extractor.extract raises. -/
def liftOutcome (o : Except PyErr Result) : Except PyErr (Option Result) :=
  match o with
  | .ok r => .ok (some r)
  | .error _ => .error (.nameError "raise_exceptions")

/-- With raise_exceptions unset, extract returns None exactly on a failed
applicability test. -/
theorem extract_of_validate_false (k : ExtractorKind) (cu : Bool) (env : Env)
    (s : Submission) (h : validate_link k s = false) :
    extract k false cu env s = .ok none := by
  simp [extract, h]

/-- When the applicability test passes, extract is extract_link on the
cleaned url, lifted through the buggy except handler. -/
theorem extract_of_validate_true (k : ExtractorKind) (env : Env)
    (s : Submission) (h : validate_link k s = true) :
    extract k false true env s = liftOutcome (extract_link k env s (clean_url s.url)) := by
  cases hE : extract_link k env s (clean_url s.url) <;>
    simp [extract, h, liftOutcome, hE]

/-- C1: the scan of the extractor list evaluates the variants in order; every
variant whose applicability test fails is skipped and the next one tried; the
first variant whose applicability test succeeds terminates the scan with its
extract_link outcome (a Resource, or a propagating extraction failure), its
extract_link is the only one entered, and no later variant is consulted (the
conclusion does not depend on the variants after it). -/
theorem C1_first_match_wins (env : Env) (s : Submission)
    (ks₁ ks₂ : List ExtractorKind) (k : ExtractorKind)
    (h₁ : ∀ j ∈ ks₁, validate_link j s = false)
    (h₂ : validate_link k s = true) :
    runChainTrace env s (ks₁ ++ k :: ks₂) =
      (liftOutcome (extract_link k env s (clean_url s.url)), [k]) := by
  induction ks₁ with
  | nil =>
    have he := extract_of_validate_true k env s h₂
    cases hE : extract_link k env s (clean_url s.url) <;>
      · rw [hE] at he
        simp [runChainTrace, he, h₂, liftOutcome, hE]
  | cons j js ih =>
    have hj : validate_link j s = false := h₁ j (by simp)
    have hE : extract j false true env s = .ok none :=
      extract_of_validate_false j true env s hj
    have ih₂ := ih (fun x hx => h₁ x (by simp [hx]))
    simp [runChainTrace, hE, hj, ih₂]

/-- Witness for C1 at a concrete input: a gfycat submission; the default
variant is not applicable, the gfycat variant is, and the chain stops there
with only the gfycat extract_link entered. -/
theorem C1_first_match_wins_witness :
    (∀ j ∈ [ExtractorKind.DefaultExtractor], validate_link j subW1 = false)
    ∧ validate_link .GfycatExtractor subW1 = true
    ∧ runChainTrace envDefault subW1 extractorOrder =
        (liftOutcome (extract_link .GfycatExtractor envDefault subW1 (clean_url subW1.url)),
         [.GfycatExtractor]) :=
  ⟨by decide, by decide,
    C1_first_match_wins envDefault subW1 [.DefaultExtractor]
      [.ImgurExtractor, .RedditExtractor] .GfycatExtractor (by decide) (by decide)⟩

/-- C2 (code bug): one extraction failure aborts the whole batch.  On the
batch consisting of a gfycat submission whose metadata lookup reports a null
item followed by a directly supported jpg submission, the scrape loop ends in
an uncaught NameError (raised by the except handler of Extractor.extract,
which reads the undefined bare name raise_exceptions); nothing is recorded
for the failed submission and the jpg submission is never processed, although
on its own it would have produced a Resource. -/
theorem C2_failure_aborts_batch :
    scrapeLoop envGfyNotFound [subGfyBad, subCat] [] [] =
      .crashed (.nameError "raise_exceptions") [] [] [subCat]
    ∧ runChain envGfyNotFound subCat extractorOrder =
        .ok (some { reddit_id := "abc1", title := "A_Cute_Cat",
                    link := "https://i.example.com/xyz.jpg", extension := "jpg" }) := by
  constructor
  · rfl
  · rfl

/-- C3 (code bug): on a clip-API submission whose metadata response carries a
null item and a declared error field, extract_link raises NameError on the
undefined bare name ExtractionError (the intended ExtractionError with the
upstream reason is never constructed), and the chain level outcome is another
NameError from the except handler, not an extraction-failed value carrying
the reason "not found". -/
theorem C3_gfycat_missing_item_crashes :
    envGfyNotFound.gfycatApi (pySplitLast '/' subGfy404.url) =
      .ok { ok := true, gfyItem := none, error := some "not found" }
    ∧ extract_link .GfycatExtractor envGfyNotFound subGfy404 (clean_url subGfy404.url) =
        .error (.nameError "ExtractionError")
    ∧ extract .GfycatExtractor false true envGfyNotFound subGfy404 =
        .error (.nameError "raise_exceptions") := by
  refine ⟨rfl, rfl, rfl⟩

/-- C7: a submission matching no applicability test is recorded by appending
its url to the invalid list, a countable outcome kept apart from the results
list; the chain returns None for it (never a propagating failure) and no
extract_link is entered. -/
theorem C7_unsupported_host_skipped (env : Env) (s : Submission)
    (h : ∀ k ∈ extractorOrder, validate_link k s = false) :
    runChain env s extractorOrder = .ok none
    ∧ (runChainTrace env s extractorOrder).2 = []
    ∧ (∀ e : PyErr, runChain env s extractorOrder ≠ .error e)
    ∧ (∀ rest results invalid, scrapeLoop env (s :: rest) results invalid =
        scrapeLoop env rest results (invalid ++ [s.url])) := by
  have h1 : validate_link .DefaultExtractor s = false := h _ (by decide)
  have h2 : validate_link .GfycatExtractor s = false := h _ (by decide)
  have h3 : validate_link .ImgurExtractor s = false := h _ (by decide)
  have h4 : validate_link .RedditExtractor s = false := h _ (by decide)
  have hc : runChainTrace env s extractorOrder = (.ok none, []) := by
    simp [extractorOrder, runChainTrace, h1, h2, h3, h4,
      extract_of_validate_false]
  refine ⟨?_, ?_, ?_, ?_⟩
  · simp [runChain, hc]
  · simp [hc]
  · intro e
    simp [runChain, hc]
  · intro rest results invalid
    simp [scrapeLoop, runChain, hc]

/-- Witness for C7 at a concrete unsupported-host submission. -/
theorem C7_unsupported_host_skipped_witness :
    runChain envDefault subUnsupported extractorOrder = .ok none
    ∧ (runChainTrace envDefault subUnsupported extractorOrder).2 = []
    ∧ (∀ e : PyErr, runChain envDefault subUnsupported extractorOrder ≠ .error e)
    ∧ (∀ rest results invalid,
        scrapeLoop envDefault (subUnsupported :: rest) results invalid =
        scrapeLoop envDefault rest results (invalid ++ [subUnsupported.url])) :=
  C7_unsupported_host_skipped envDefault subUnsupported (by decide)

/-- Every extract_link body ignores the url argument it receives from
extract; each variant reads submission.url directly. -/
theorem extract_link_ignores_url (k : ExtractorKind) (env : Env)
    (s : Submission) (u v : String) :
    extract_link k env s u = extract_link k env s v := by
  cases k <;> rfl

/-- C10: the clean_urls flag has no influence on extract.  For every variant,
every raise_exceptions setting, every environment and every submission, the
outcome with clean_urls set equals the outcome with clean_urls unset: the
cleaned url is passed to extract_link but never read there. -/
theorem C10_clean_urls_noninterference (k : ExtractorKind) (re : Bool)
    (env : Env) (s : Submission) :
    extract k re true env s = extract k re false env s := by
  unfold extract
  cases h : validate_link k s
  · simp [h]
  · simp only [h, Bool.not_true, Bool.false_eq_true, if_false, if_true]
    rw [extract_link_ignores_url k env s (clean_url s.url) s.url]

/-- Concrete two-image album and an album url submission. -/
def albumTwo : ImgurAlbum :=
  { images := [ { title := some "one", link := "https://i.imgur.com/one.jpg" },
                { title := none, link := "https://i.imgur.com/two.png" } ] }

def subAlbum : Submission :=
  { id := "c4", title := "album post", url := "http://imgur.com/a/Jjnmu",
    score := 3 }

/-- Environment whose imgur collaborator knows the two-image album and
answers get_image with a single gif. -/
def envAlbum : Env :=
  { envDefault with
    imgurGetAlbum := fun _ => .ok albumTwo,
    imgurGetImage := fun _ =>
      .ok { title := some "x", link := "https://i.imgur.com/single.gif",
            type := "image/gif" } }

/-- C4 counterexample: in the pipeline of src/rscrape.py, an album url of the
image-gallery host (path segment a slash) is claimed by ImgurExtractor, which
issues a single get_image call on the trailing path segment and produces
exactly one Resource, even though the album behind the url holds two images;
there is no one-Resource-per-album-image fan-out in the chain. -/
theorem C4_counterexample :
    runChain envAlbum subAlbum extractorOrder =
      .ok (some { reddit_id := "c4", title := "album post",
                  link := "https://i.imgur.com/single.gif", extension := "gif" })
    ∧ envAlbum.imgurGetAlbum (pySplitLast '/' subAlbum.url) = .ok albumTwo
    ∧ albumTwo.images.length = 2 := by
  refine ⟨rfl, rfl, rfl⟩

/-- C4 amended: the per-album-image fan-out lives only in parse_imgur_url of
the legacy draft src/old.py: there, an album or gallery url resolves to one
descriptor per album image and any non-album url of the host to exactly one
descriptor; in the pipeline of src/rscrape.py every imgur submission, album
or not, resolves to exactly one Resource through a single get_image call on
the trailing path segment. -/
theorem C4_amended :
    (∀ (env : Env) (url : String) (album : ImgurAlbum),
      (pyContains url "imgur.com/a/" || pyContains url "imgur.com/gallery") = true →
      env.imgurGetAlbum (pySplitLast '/' url) = .ok album →
      ∃ ds, parse_imgur_url env url = .ok ds ∧ ds.length = album.images.length)
    ∧ (∀ (env : Env) (url : String) (ds : List ImgDict),
      (pyContains url "imgur.com/a/" || pyContains url "imgur.com/gallery") = false →
      parse_imgur_url env url = .ok ds → ds.length = 1)
    ∧ (∀ (env : Env) (s : Submission) (img : ImgurImage),
      validate_link .ImgurExtractor s = true →
      env.imgurGetImage (pySplitLast '/' s.url) = .ok img →
      extract .ImgurExtractor false true env s =
        .ok (some { reddit_id := s.id, title := s.title, link := img.link,
                    extension := parse_extension img.type })) := by
  refine ⟨?_, ?_, ?_⟩
  · intro env url album h ha
    refine ⟨album.images.map (fun im =>
      { title := im.title.getD "", link := im.link,
        extension := pySplitLast '.' im.link }), ?_, ?_⟩
    · unfold parse_imgur_url
      rw [h, ha]
      simp
    · exact List.length_map _ _
  · intro env url ds h hp
    unfold parse_imgur_url at hp
    rw [h] at hp
    simp only [Bool.false_eq_true, if_false] at hp
    split at hp
    · rw [← Except.ok.inj hp]
      rfl
    · split at hp
      · rw [← Except.ok.inj hp]
        rfl
      · split at hp
        · exact absurd hp (by simp)
        · rw [← Except.ok.inj hp]
          rfl
  · intro env s img hv himg
    rw [extract_of_validate_true _ _ _ hv]
    show liftOutcome (imgur_extract_link env s (clean_url s.url)) = _
    unfold imgur_extract_link
    rw [himg]
    rfl

/-- Witness for C4 amended: the album url resolves through parse_imgur_url to
two descriptors (one per album image); a direct i.imgur.com url resolves to
one; the pipeline on the album submission yields the single get_image
Resource. -/
theorem C4_amended_witness :
    (∃ ds, parse_imgur_url envAlbum subAlbum.url = Except.ok ds ∧
      ds.length = albumTwo.images.length)
    ∧ ([({ title := "", link := "https://i.imgur.com/zzz.png", extension := "png" } :
          ImgDict)]).length = 1
    ∧ extract .ImgurExtractor false true envAlbum subAlbum =
        .ok (some { reddit_id := "c4", title := "album post",
                    link := "https://i.imgur.com/single.gif", extension := "gif" }) :=
  ⟨C4_amended.1 envAlbum subAlbum.url albumTwo (by decide) rfl,
   C4_amended.2.1 envAlbum "https://i.imgur.com/zzz.png" _ (by decide) rfl,
   C4_amended.2.2 envAlbum subAlbum
     { title := some "x", link := "https://i.imgur.com/single.gif",
       type := "image/gif" } (by decide) rfl⟩

/-- Write sequence of the transfer loop equals the maximal prefix of
non-empty chunks: the loop stops at the first empty chunk. -/
theorem downloadLoop_eq_takeWhile (chunks : List (List Nat)) :
    downloadLoop chunks = chunks.takeWhile (fun c => !c.isEmpty) := by
  induction chunks with
  | nil => rfl
  | cons c rest ih =>
    cases h : c.isEmpty <;> simp [downloadLoop, List.takeWhile_cons, h, ih]

/-- C5: the downloader streams the body chunkwise with chunk size 1024; the
writes performed are exactly the prefix of chunks before the first
zero-length one, so every write is a non-empty chunk of the response and
(because iter_content bounds chunks by the chunk size) holds at most 1024
bytes at a time, and the with block leaves the handle closed. -/
theorem C5_download_streams_in_chunks (dir : String)
    (fetchStream : String → StreamResp) (r : Result)
    (hb : ∀ c ∈ (fetchStream r.link).chunks, c.length ≤ downloadChunkSize) :
    downloadChunkSize = 1024
    ∧ (downloadOne dir fetchStream r).writes =
        (fetchStream r.link).chunks.takeWhile (fun c => !c.isEmpty)
    ∧ (∀ c ∈ (downloadOne dir fetchStream r).writes,
        c.isEmpty = false ∧ c ∈ (fetchStream r.link).chunks ∧
        c.length ≤ downloadChunkSize)
    ∧ (downloadOne dir fetchStream r).closed = true := by
  refine ⟨rfl, downloadLoop_eq_takeWhile _, ?_, rfl⟩
  intro c hc
  have hc₂ : c ∈ (fetchStream r.link).chunks.takeWhile (fun c => !c.isEmpty) := by
    rw [← downloadLoop_eq_takeWhile]
    exact hc
  have h₁ := List.mem_takeWhile_imp hc₂
  have h₂ : c ∈ (fetchStream r.link).chunks :=
    (List.takeWhile_prefix _).sublist.subset hc₂
  exact ⟨by simpa using h₁, h₂, hb c h₂⟩

/-- Concrete stream and Resource for the C5 witness. -/
def fetchStreamW : String → StreamResp :=
  fun _ => { chunks := [[1, 2, 3], [4], [], [5, 6]] }

def resCat : Result :=
  { reddit_id := "abc1", title := "A_Cute_Cat",
    link := "https://i.example.com/xyz.jpg", extension := "jpg" }

/-- Witness for C5 on a concrete four-chunk stream whose third chunk is
empty. -/
theorem C5_download_streams_in_chunks_witness :
    downloadChunkSize = 1024
    ∧ (downloadOne "test" fetchStreamW resCat).writes =
        (fetchStreamW resCat.link).chunks.takeWhile (fun c => !c.isEmpty)
    ∧ (∀ c ∈ (downloadOne "test" fetchStreamW resCat).writes,
        c.isEmpty = false ∧ c ∈ (fetchStreamW resCat.link).chunks ∧
        c.length ≤ downloadChunkSize)
    ∧ (downloadOne "test" fetchStreamW resCat).closed = true :=
  C5_download_streams_in_chunks "test" fetchStreamW resCat (by decide)

/-- Imgur submission whose title holds a space, and an environment answering
get_image with a png. -/
def subImgurTitle : Submission :=
  { id := "x9", title := "A Cute Cat", url := "http://imgur.com/abCd123",
    score := 1 }

def envImgurPng : Env :=
  { envDefault with
    imgurGetImage := fun _ =>
      .ok { title := none, link := "https://i.imgur.com/abCd123.png",
            type := "image/png" } }

def resImgurRaw : Result :=
  { reddit_id := "x9", title := "A Cute Cat",
    link := "https://i.imgur.com/abCd123.png", extension := "png" }

/-- C6 counterexample: the Resource the chain produces for an imgur
submission carries the raw submission title (ImgurExtractor.extract_link,
src/rscrape.py line 187, does not call slugify), so the downloader filename
holds the unsanitized title, not the sanitized one the claim requires for
every variant. -/
theorem C6_counterexample :
    runChain envImgurPng subImgurTitle extractorOrder = .ok (some resImgurRaw)
    ∧ envImgurPng.slug subImgurTitle.title = "A_Cute_Cat"
    ∧ download_filename resImgurRaw = "[x9] A Cute Cat.png"
    ∧ download_filename resImgurRaw ≠
        "[" ++ subImgurTitle.id ++ "] " ++ envImgurPng.slug subImgurTitle.title ++ ".png" := by
  refine ⟨rfl, rfl, rfl, by decide⟩

/-- C6 amended: the downloader filename is always open bracket, sourceId,
close bracket, space, title, dot, extension, with the title component the
slugified submission title for Resources of the Default, Gfycat and Reddit
variants, but the raw submission title for Resources of the Imgur variant. -/
theorem C6_amended :
    (∀ r : Result, download_filename r =
      "[" ++ r.reddit_id ++ "] " ++ r.title ++ "." ++ r.extension)
    ∧ (∀ (env : Env) (s : Submission) (u : String) (r : Result),
        extract_link .DefaultExtractor env s u = .ok r →
        r.title = env.slug s.title ∧ r.reddit_id = s.id)
    ∧ (∀ (env : Env) (s : Submission) (u : String) (r : Result),
        extract_link .GfycatExtractor env s u = .ok r →
        r.title = env.slug s.title ∧ r.reddit_id = s.id)
    ∧ (∀ (env : Env) (s : Submission) (u : String) (r : Result),
        extract_link .RedditExtractor env s u = .ok r →
        r.title = env.slug s.title ∧ r.reddit_id = s.id)
    ∧ (∀ (env : Env) (s : Submission) (u : String) (r : Result),
        extract_link .ImgurExtractor env s u = .ok r →
        r.title = s.title ∧ r.reddit_id = s.id) := by
  refine ⟨fun r => rfl, ?_, ?_, ?_, ?_⟩
  · intro env s u r h
    rw [← Except.ok.inj h]
    exact ⟨rfl, rfl⟩
  · intro env s u r h
    replace h : gfycat_extract_link env s u = .ok r := h
    unfold gfycat_extract_link at h
    split at h
    · exact absurd h (by simp)
    · split at h
      · split at h
        · rw [← Except.ok.inj h]
          exact ⟨rfl, rfl⟩
        · exact absurd h (by simp)
      · exact absurd h (by simp)
  · intro env s u r h
    replace h : reddit_extract_link env s u = .ok r := h
    unfold reddit_extract_link at h
    split at h
    · exact absurd h (by simp)
    · split at h
      · exact absurd h (by simp)
      · rw [← Except.ok.inj h]
        exact ⟨rfl, rfl⟩
  · intro env s u r h
    replace h : imgur_extract_link env s u = .ok r := h
    unfold imgur_extract_link at h
    split at h
    · exact absurd h (by simp)
    · rw [← Except.ok.inj h]
      exact ⟨rfl, rfl⟩

/-- Reddit-hosted submission shared by the witnesses below. -/
def subReddit : Submission :=
  { id := "r1", title := "red pic", url := "https://i.redd.it/abc", score := 2 }

/-- Witness for C6 amended at one concrete Resource of each variant. -/
theorem C6_amended_witness :
    download_filename resImgurRaw =
      "[" ++ resImgurRaw.reddit_id ++ "] " ++ resImgurRaw.title ++ "." ++ resImgurRaw.extension
    ∧ (resCat.title = envDefault.slug subCat.title ∧ resCat.reddit_id = subCat.id)
    ∧ (({ reddit_id := "g1", title := "nice_clip",
          link := "https://giant.gfycat.com/v.mp4", extension := "mp4" } : Result).title =
            envDefault.slug subW1.title
        ∧ ({ reddit_id := "g1", title := "nice_clip",
             link := "https://giant.gfycat.com/v.mp4", extension := "mp4" } : Result).reddit_id =
            subW1.id)
    ∧ (({ reddit_id := "r1", title := "red_pic", link := "https://i.redd.it/abc",
          extension := "png" } : Result).title = envDefault.slug subReddit.title
        ∧ ({ reddit_id := "r1", title := "red_pic", link := "https://i.redd.it/abc",
             extension := "png" } : Result).reddit_id = subReddit.id)
    ∧ (resImgurRaw.title = subImgurTitle.title ∧
       resImgurRaw.reddit_id = subImgurTitle.id) :=
  ⟨C6_amended.1 resImgurRaw,
   C6_amended.2.1 envDefault subCat "u" resCat rfl,
   C6_amended.2.2.1 envDefault subW1 "u" _ rfl,
   C6_amended.2.2.2.1 envDefault subReddit "u" _ rfl,
   C6_amended.2.2.2.2 envImgurPng subImgurTitle "u" resImgurRaw rfl⟩

/-- pyEndsWith agrees with the list suffix relation. -/
theorem pyEndsWith_iff_suffix (s e : String) :
    pyEndsWith s e = true ↔ e.data <:+ s.data := by
  unfold pyEndsWith List.isSuffixOf
  rw [List.isPrefixOf_iff_prefix, List.reverse_prefix]

/-- The separator never occurs in the segment after its last occurrence. -/
theorem pySplitLast_not_mem_sep (sep : Char) (u : String) :
    sep ∉ (pySplitLast sep u).data := by
  intro hmem
  have hmem₂ : sep ∈ (u.data.reverse.takeWhile (fun c => c != sep)).reverse := hmem
  rw [List.mem_reverse] at hmem₂
  have hp := List.mem_takeWhile_imp hmem₂
  simp at hp

/-- When u ends with a non-empty string e that avoids the separator, the
segment of u after the last separator is non-empty. -/
theorem pySplitLast_ne_empty (sep : Char) (u e : String)
    (he : pyEndsWith u e = true) (hne : e.data ≠ [])
    (hd : ∀ c ∈ e.data, c ≠ sep) :
    pySplitLast sep u ≠ "" := by
  intro hcontra
  have hnil : (u.data.reverse.takeWhile (fun c => c != sep)).reverse = [] :=
    congrArg String.data hcontra
  rw [List.reverse_eq_nil_iff] at hnil
  rw [pyEndsWith_iff_suffix] at he
  obtain ⟨t, ht⟩ := he
  obtain ⟨c, cs, hcs⟩ :=
    List.exists_cons_of_ne_nil (fun hrev => hne (List.reverse_eq_nil_iff.mp hrev))
  have hrevu : u.data.reverse = c :: (cs ++ t.reverse) := by
    rw [← ht, List.reverse_append, hcs]
    rfl
  have hc : c ∈ e.data := by
    rw [← List.mem_reverse, hcs]
    exact List.mem_cons_self _ _
  have hcne : (c != sep) = true := by
    simpa using hd c hc
  rw [hrevu] at hnil
  simp [List.takeWhile_cons, hcne] at hnil

/-- Direct-extension submission whose last dot segment mixes case, and an
environment whose content-type header for the opaque host is the bare string
image slash (empty subtype). -/
def subMixedCase : Submission :=
  { id := "d1", title := "odd", url := "https://h.example.com/a.Bjpg",
    score := 0 }

def envEmptyCt : Env :=
  { envDefault with
    httpGet := fun _ => .ok { ok := true, contentType := some "image/" } }

/-- C8 counterexample: the chain hands the downloader a Resource whose
extension is the mixed-case string Bjpg (DefaultExtractor takes the segment
after the last dot of a url that merely ends in jpg), and a Resource whose
extension is empty (RedditExtractor copies the content-type tail verbatim);
neither lowercase nor non-emptiness is enforced anywhere. -/
theorem C8_counterexample :
    runChain envEmptyCt subMixedCase extractorOrder =
      .ok (some { reddit_id := "d1", title := "odd",
                  link := "https://h.example.com/a.Bjpg", extension := "Bjpg" })
    ∧ "Bjpg".data.any Char.isUpper = true
    ∧ runChain envEmptyCt subReddit extractorOrder =
      .ok (some { reddit_id := "r1", title := "red_pic",
                  link := "https://i.redd.it/abc", extension := "" }) := by
  refine ⟨rfl, rfl, rfl⟩

/-- C8 amended: what the code guarantees about extensions.  Gfycat Resources
always carry the literal mp4.  Default Resources carry the url segment after
the last dot, which never contains a dot and is non-empty whenever the
applicability test passed, but keeps whatever case the url had.  Reddit and
Imgur Resources carry the collaborator content type after its last slash,
verbatim, with no case, emptiness or dot guarantee of their own. -/
theorem C8_amended :
    (∀ (env : Env) (s : Submission) (u : String) (r : Result),
      gfycat_extract_link env s u = .ok r → r.extension = "mp4")
    ∧ (∀ (env : Env) (s : Submission) (u : String) (r : Result),
      validate_link .DefaultExtractor s = true →
      default_extract_link env s u = .ok r →
      r.extension ≠ "" ∧ '.' ∉ r.extension.data)
    ∧ (∀ (env : Env) (s : Submission) (u : String) (r : Result)
        (resp : HttpResp) (ct : String),
      reddit_extract_link env s u = .ok r →
      env.httpGet s.url = .ok resp → resp.contentType = some ct →
      r.extension = pySplitLast '/' ct)
    ∧ (∀ (env : Env) (s : Submission) (u : String) (r : Result)
        (img : ImgurImage),
      imgur_extract_link env s u = .ok r →
      env.imgurGetImage (pySplitLast '/' s.url) = .ok img →
      r.extension = pySplitLast '/' img.type) := by
  refine ⟨?_, ?_, ?_, ?_⟩
  · intro env s u r h
    unfold gfycat_extract_link at h
    split at h
    · exact absurd h (by simp)
    · split at h
      · split at h
        · rw [← Except.ok.inj h]
        · exact absurd h (by simp)
      · exact absurd h (by simp)
  · intro env s u r hv h
    have hext : r.extension = pySplitLast '.' s.url := by
      rw [← Except.ok.inj h]
    have hany : ∃ e ∈ default_extensions, pyEndsWith s.url e = true := by
      simpa [validate_link, List.any_eq_true] using hv
    obtain ⟨e, hmem, hsuf⟩ := hany
    have hcond : e.data ≠ [] ∧ ∀ c ∈ e.data, c ≠ '.' := by
      have : e = "jpeg" ∨ e = "jpg" ∨ e = "png" ∨ e = "gif" := by
        simpa [default_extensions] using hmem
      rcases this with h1 | h1 | h1 | h1 <;> subst h1 <;> exact ⟨by decide, by decide⟩
    constructor
    · rw [hext]
      exact pySplitLast_ne_empty '.' s.url e hsuf hcond.1 hcond.2
    · rw [hext]
      exact pySplitLast_not_mem_sep '.' s.url
  · intro env s u r resp ct h hresp hct
    unfold reddit_extract_link get_file_extension at h
    simp only [hresp, hct] at h
    rw [← Except.ok.inj h]
  · intro env s u r img h himg
    unfold imgur_extract_link at h
    rw [himg] at h
    rw [← Except.ok.inj h]
    rfl

/-- Concrete Resources of the four variants, shared by witnesses. -/
def resGfyClip : Result :=
  { reddit_id := "g1", title := "nice_clip",
    link := "https://giant.gfycat.com/v.mp4", extension := "mp4" }

def resMixedCase : Result :=
  { reddit_id := "d1", title := "odd", link := "https://h.example.com/a.Bjpg",
    extension := "Bjpg" }

def resRedditEmpty : Result :=
  { reddit_id := "r1", title := "red_pic", link := "https://i.redd.it/abc",
    extension := "" }

/-- Witness for C8 amended at concrete inputs of all four variants. -/
theorem C8_amended_witness :
    resGfyClip.extension = "mp4"
    ∧ (resMixedCase.extension ≠ "" ∧ '.' ∉ resMixedCase.extension.data)
    ∧ resRedditEmpty.extension = pySplitLast '/' "image/"
    ∧ resImgurRaw.extension = pySplitLast '/' "image/png" :=
  ⟨C8_amended.1 envDefault subW1 "u" resGfyClip rfl,
   C8_amended.2.1 envEmptyCt subMixedCase "u" resMixedCase (by decide) rfl,
   C8_amended.2.2.1 envEmptyCt subReddit "u" resRedditEmpty
     { ok := true, contentType := some "image/" } "image/" rfl rfl rfl,
   C8_amended.2.2.2 envImgurPng subImgurTitle "u" resImgurRaw
     { title := none, link := "https://i.imgur.com/abCd123.png", type := "image/png" } rfl rfl⟩

/-- Definition following the words of the spec rather than the source, used
only to state C9 exactly as written: the URL path is the part of the URL
before the query string (everything before the first question mark). -/
def urlPathSpec (url : String) : String :=
  String.mk (url.data.takeWhile (fun c => c != '?'))

/-- Direct media url carrying a query string after its media suffix. -/
def subQuery : Submission :=
  { id := "q1", title := "pic", url := "https://i.example.com/a.jpg?8",
    score := 2 }

/-- C9 counterexample: a submission whose URL path ends in jpg but whose URL
carries a trailing query string; the applicability test of the
direct-extension variant inspects the whole URL string with endswith, so the
variant does not apply and produces nothing. -/
theorem C9_counterexample :
    pyEndsWith (urlPathSpec subQuery.url) "jpg" = true
    ∧ validate_link .DefaultExtractor subQuery = false
    ∧ extract .DefaultExtractor false true envDefault subQuery = .ok none := by
  refine ⟨rfl, rfl, rfl⟩

/-- C9 amended: for every submission whose URL string ends in one of jpeg,
jpg, png, gif, the direct-extension variant applies and, with no network
call (its extract_link output depends only on the slug collaborator, not on
any network component of the environment), produces a Resource whose link is
the submission url, whose sourceId is the submission id, and whose extension
is the url segment after the last dot; on the concrete spec scenario (id
abc1, title A Cute Cat, url ending in xyz.jpg), with a sanitizer mapping the
title to A_Cute_Cat, the chain yields that Resource with extension jpg and
the downloader filename is open bracket abc1 close bracket space A_Cute_Cat
dot jpg. -/
theorem C9_amended :
    (∀ (env : Env) (s : Submission),
      (∃ e ∈ default_extensions, pyEndsWith s.url e = true) →
      validate_link .DefaultExtractor s = true
      ∧ extract .DefaultExtractor false true env s =
          .ok (some { reddit_id := s.id, title := env.slug s.title,
                      link := s.url, extension := pySplitLast '.' s.url }))
    ∧ (∀ env envB : Env, env.slug = envB.slug →
        ∀ (s : Submission) (u : String),
        default_extract_link env s u = default_extract_link envB s u)
    ∧ (∀ env : Env, env.slug "A Cute Cat" = "A_Cute_Cat" →
        runChain env subCat extractorOrder = .ok (some resCat)
        ∧ download_filename resCat = "[abc1] A_Cute_Cat.jpg") := by
  refine ⟨?_, ?_, ?_⟩
  · intro env s hex
    have hv : validate_link .DefaultExtractor s = true := by
      simp only [validate_link, List.any_eq_true]
      obtain ⟨e, he₁, he₂⟩ := hex
      exact ⟨e, he₁, he₂⟩
    refine ⟨hv, ?_⟩
    rw [extract_of_validate_true _ _ _ hv]
    rfl
  · intro env envB hs s u
    unfold default_extract_link
    rw [hs]
  · intro env hslug
    have h1 : validate_link .DefaultExtractor subCat = true := by decide
    have he := extract_of_validate_true .DefaultExtractor env subCat h1
    have he₂ : extract .DefaultExtractor false true env subCat =
        .ok (some { reddit_id := "abc1", title := env.slug "A Cute Cat",
                    link := "https://i.example.com/xyz.jpg", extension := "jpg" }) := by
      rw [he]
      rfl
    rw [hslug] at he₂
    constructor
    · show (runChainTrace env subCat extractorOrder).1 = _
      simp [extractorOrder, runChainTrace, he₂, resCat]
    · rfl

/-- Witness for C9 amended at the concrete scenario submission, using the
underscore sanitizer and two environments differing in every network
component but not in the sanitizer. -/
theorem C9_amended_witness :
    (validate_link .DefaultExtractor subCat = true
      ∧ extract .DefaultExtractor false true envDefault subCat =
          .ok (some { reddit_id := subCat.id, title := envDefault.slug subCat.title,
                      link := subCat.url, extension := pySplitLast '.' subCat.url }))
    ∧ default_extract_link envDefault subCat "u" = default_extract_link envAlbum subCat "u"
    ∧ (runChain envDefault subCat extractorOrder = .ok (some resCat)
      ∧ download_filename resCat = "[abc1] A_Cute_Cat.jpg") :=
  ⟨C9_amended.1 envDefault subCat ⟨"jpg", by decide, by decide⟩,
   C9_amended.2.1 envDefault envAlbum rfl subCat "u",
   C9_amended.2.2 envDefault rfl⟩
